import Mathlib

/-!
Verification of the turn-execution loop of the computer-use agent
(`src/agent/agent.py`, `src/memory_providers/file_memory_provider.py`).

Shallow embedding conventions:
* Conversation items (Python dicts tagged by a `"type"` key) become the
  inductive `Item`; only `message` items carry a `"role"` key, mirroring the
  item vocabulary produced by the model endpoint.
* The model endpoint (`create_response` from `utils`, an external
  collaborator) is an oracle `List Item → Response`; a response whose dict
  lacks the `"output"` key is modelled by `Response.output = none`.
* `json.loads` (Python standard library) is an oracle
  `parse : String → Option (List (String × String))`; `none` models a
  `JSONDecodeError`.  Parsed argument objects are flat string-to-string maps,
  which covers every tool the agent dispatches.
* The computer backend is an external collaborator: `Computer.methods` is its
  attribute surface (for `hasattr`), `screenshot` and `current_url` are the
  values its probe calls return during one dispatch; action invocations are
  side effects with no modelled return value.
* The brain file is the agent's memory state, an `Option String`:
  `none` when no brain file is configured (`brain_file` falsy), `some s`
  when the file exists with contents `s`.
* Python exceptions become `Except AgentError`; `RunResult.outOfFuel`
  marks a loop iteration bound being exhausted, so `RunResult.ok` is exactly
  a normal return of `run_full_turn`.
* Printing (`print_steps`, `show_images`, `debug_print`) is pure I/O with no
  effect on control flow or data, and is erased.
-/

/-- A pending safety check attached to a `computer_call` item
(the code reads only its `"message"` field). -/
structure SafetyCheck where
  id : String
  message : String
deriving DecidableEq

/-- Output payload of a `computer_call_output` item: the screenshot image URL
and, in browser environments, the current page URL. -/
structure CallOutput where
  image_url : String
  current_url : Option String
deriving DecidableEq

/-- Conversation items, the tagged union the loop manipulates. -/
inductive Item where
  | message (role : String) (content : List String)
  | functionCall (name : String) (arguments : String) (call_id : String)
  | functionCallOutput (call_id : String) (output : Option String)
  | computerCall (action_type : String) (action_args : List (String × String))
      (call_id : String) (pending_safety_checks : List SafetyCheck)
  | computerCallOutput (call_id : String)
      (acknowledged_safety_checks : List SafetyCheck) (output : CallOutput)
  | other (ty : String)
deriving DecidableEq

/-- `item.get "role"`: only message items carry a role. -/
def getRole : Item → Option String
  | .message role _ => some role
  | _ => none

/-- A model response: `output = none` models a response dict lacking the
`"output"` key. -/
structure Response where
  output : Option (List Item)

/-- Errors raised by the agent code (Python exceptions).
`malformedArguments` is the `json.JSONDecodeError` from `json.loads`;
`typeError` is the `TypeError` from calling `write_memory(**args)` with
keyword arguments other than exactly `content`;
`safetyCheckRejected` is the `ValueError` raised on an unacknowledged check;
`blockedURL` is the `ValueError` raised by `check_blocklisted_url`;
`noModelOutput` is the `ValueError("No output from model")`;
`keyError` is the `KeyError` from `response["output"]` when the key is absent;
`unsupportedOperation` is the `ValueError` raised by
`FileMemoryProvider.handle_call` on an unrecognized tool name. -/
inductive AgentError where
  | malformedArguments
  | typeError
  | safetyCheckRejected (message : String)
  | blockedURL
  | noModelOutput
  | keyError
  | unsupportedOperation (name : String)
deriving DecidableEq

/-- The computer backend as seen by the dispatcher during one item:
its attribute surface, environment kind, and the values returned by
`screenshot()` and `get_current_url()`. -/
structure Computer where
  methods : List String
  environment : String
  dimensions : Nat × Nat
  screenshot : String
  current_url : String

/-- Static collaborators of the agent: the computer backend, the JSON
argument parser oracle, the safety-check acknowledgment callback, and the
URL blocklist predicate.

The blocklist predicate is modelled from the spec: `check_blocklisted_url`
lives in `utils`, which is not under `src/`; per the spec it fails with a
`BlockedURL` error exactly when the URL matches a disallowed pattern, so it
is embedded as an abstract predicate `blocked`. -/
structure Env where
  computer : Computer
  parse : String → Option (List (String × String))
  ack : String → Bool
  blocked : String → Bool

/-- `Agent.fetch_memory`: read the whole brain file; empty when no brain
file is configured (read failures, also mapped to `""` by the code, do not
arise in the pure file-state model). -/
def Agent.fetch_memory : Option String → String
  | none => ""
  | some contents => contents

/-- `Agent.write_memory`: append a newline then the content to the brain
file and return the content; return `""` and leave state untouched when no
brain file is configured. -/
def Agent.write_memory : Option String → String → String × Option String
  | none, _ => ("", none)
  | some contents, content => (content, some (contents ++ ("\n" ++ content)))

/-- Keyword-argument application of `self.write_memory(**args)`: Python
accepts exactly the single keyword `content`, raising `TypeError` otherwise. -/
def kwargsContentOnly : List (String × String) → Option String
  | [(k, v)] => if k = "content" then some v else none
  | _ => none

/-- The `result` computed for a `function_call` item: memory tools first,
then the computer backend attribute surface, else `None`. -/
def functionCallResult (env : Env) (brain : Option String) (name : String)
    (kwargs : List (String × String)) :
    Except AgentError (Option String × Option String) :=
  if name = "fetch_memory" then
    .ok (some (Agent.fetch_memory brain), brain)
  else if name = "write_memory" then
    match kwargsContentOnly kwargs with
    | none => .error .typeError
    | some content =>
      let r := Agent.write_memory brain content
      .ok (some r.1, r.2)
  else if env.computer.methods.contains name then
    .ok (some "success", brain)
  else
    .ok (none, brain)

/-- `Agent.handle_item`: dispatch one model output item, returning the items
to append and the updated brain-file state, or the exception raised. -/
def Agent.handle_item (env : Env) (brain : Option String) :
    Item → Except AgentError (List Item × Option String)
  | .functionCall name args call_id =>
    match env.parse args with
    | none => .error .malformedArguments
    | some kwargs =>
      match functionCallResult env brain name kwargs with
      | .error e => .error e
      | .ok (result, brain') =>
        .ok ([.functionCallOutput call_id result], brain')
  | .computerCall _ _ call_id checks =>
    match checks.find? (fun ch => ! env.ack ch.message) with
    | some ch => .error (.safetyCheckRejected ch.message)
    | none =>
      if env.computer.environment = "browser" then
        if env.blocked env.computer.current_url then
          .error .blockedURL
        else
          .ok ([.computerCallOutput call_id checks
                 { image_url := "data:image/png;base64," ++ env.computer.screenshot,
                   current_url := some env.computer.current_url }], brain)
      else
        .ok ([.computerCallOutput call_id checks
               { image_url := "data:image/png;base64," ++ env.computer.screenshot,
                 current_url := none }], brain)
  | _ => .ok ([], brain)

/-- The inner `for item in response["output"]` loop: dispatch each item in
order, concatenating the returned items and threading the brain state;
an exception aborts the whole loop. -/
def handleItems (env : Env) : Option String → List Item →
    Except AgentError (List Item × Option String)
  | brain, [] => .ok ([], brain)
  | brain, it :: rest =>
    match Agent.handle_item env brain it with
    | .error e => .error e
    | .ok (out, brain') =>
      match handleItems env brain' rest with
      | .error e => .error e
      | .ok (outs, brain'') => .ok (out ++ outs, brain'')

/-- The `while` condition, negated: the loop stops once the accumulator is
nonempty and its last item answers `"assistant"` to `.get("role")`. -/
def stopCond (new_items : List Item) : Bool :=
  (new_items.getLast?.bind getRole) == some "assistant"

/-- Outcome of a bounded run of the turn loop: a normal return, a raised
exception, or the iteration bound exhausted (modelling non-termination). -/
inductive RunResult where
  | ok (items : List Item)
  | error (e : AgentError)
  | outOfFuel
deriving DecidableEq

/-- The body of `run_full_turn`: loop until the last accumulated item is an
assistant message; each iteration calls the model on the full context,
appends its output items, then appends every item the dispatcher returns. -/
def runLoop (env : Env) (oracle : List Item → Response) (debug : Bool)
    (input_items : List Item) :
    Nat → List Item → Option String → RunResult
  | 0, _, _ => .outOfFuel
  | fuel + 1, new_items, brain =>
    if stopCond new_items then .ok new_items
    else
      match (oracle (input_items ++ new_items)).output with
      | none => .error (if debug then .noModelOutput else .keyError)
      | some out =>
        match handleItems env brain out with
        | .error e => .error e
        | .ok (handled, brain') =>
          runLoop env oracle debug input_items fuel
            (new_items ++ out ++ handled) brain'

/-- `Agent.run_full_turn`: run the loop with an empty accumulator.  The model
identifier, tool list and truncation policy passed to `create_response` are
fixed for the agent and absorbed into the oracle closure. -/
def Agent.run_full_turn (env : Env) (oracle : List Item → Response)
    (debug : Bool) (input_items : List Item) (fuel : Nat)
    (brain : Option String) : RunResult :=
  runLoop env oracle debug input_items fuel [] brain

/-- `FileMemoryProvider.handle_call` over the memory-file contents as state:
returns the result and the new file contents, or raises on an unrecognized
tool name. -/
def FileMemoryProvider.handle_call (state : String) (name : String)
    (arguments : List (String × String)) :
    Except AgentError (String × String) :=
  if name = "fetch_memory" then .ok (state, state)
  else if name = "write_memory" then
    let content := (arguments.lookup "content").getD ""
    .ok (content, state ++ ("\n" ++ content))
  else .error (.unsupportedOperation name)

/-- Tool descriptors, as far as the claims need them: the synthesized
computer tool and named function tools. -/
inductive Tool where
  | computerPreview (display_width : Nat) (display_height : Nat)
      (environment : String)
  | function (name : String) (description : String) (required : List String)
deriving DecidableEq

/-- The two memory tool descriptors added by `Agent.__init__` when a brain
file is configured. -/
def memoryTools : List Tool :=
  [ .function "fetch_memory" "Fetch your memory from the brain file" [],
    .function "write_memory" "Append content to your memory file" ["content"] ]

/-- Recognize a memory tool descriptor by its function name. -/
def isMemoryTool : Tool → Bool
  | .function n _ _ => n == "fetch_memory" || n == "write_memory"
  | _ => false

/-- The computer tool synthesized by `Agent.__init__` when a computer is
supplied. -/
def computerToolOf : Option Computer → List Tool
  | none => []
  | some c => [.computerPreview c.dimensions.1 c.dimensions.2 c.environment]

/-- Python truthiness of the `brain_file` argument: `None` and `""` are
falsy. -/
def brainPresent : Option String → Bool
  | none => false
  | some s => s ≠ ""

/-- The tool list assembled by `Agent.__init__`: caller tools, then the
computer tool, then the memory tools when a brain file is configured. -/
def agentTools (computer : Option Computer) (brain_file : Option String)
    (tools : List Tool) : List Tool :=
  (tools ++ computerToolOf computer) ++
    (if brainPresent brain_file then memoryTools else [])

/-- Modelled from the spec: the per-turn base context built by the
memory-provider variant of the turn controller.  That variant of the Agent
(the one `src/cli.py` constructs with `memory_providers=[...]`) is not under
`src/`; per the spec, the controller attempts `fetch_memory` on each
provider, prepends a system-role item for each success with non-empty
content, and swallows fetch failures.  A provider's fetch attempt is
modelled by an `Except Unit String`. -/
def buildBaseContext (fetches : List (Except Unit String)) : List Item :=
  fetches.filterMap fun r =>
    match r with
    | .ok content =>
      if content = "" then none else some (.message "system" [content])
    | .error _ => none

/-- Modelled from the spec: the memory-provider variant of `run_full_turn`,
which runs the same loop on the base context prepended to the caller's
input items. -/
def runFullTurnMP (env : Env) (oracle : List Item → Response) (debug : Bool)
    (fetches : List (Except Unit String)) (input_items : List Item)
    (fuel : Nat) (brain : Option String) : RunResult :=
  Agent.run_full_turn env oracle debug
    (buildBaseContext fetches ++ input_items) fuel brain

deriving instance DecidableEq for Except

/-- A benign concrete environment used by witnesses. -/
def envW : Env :=
  { computer :=
      { methods := ["click", "goto"], environment := "mac",
        dimensions := (1024, 768), screenshot := "IMG",
        current_url := "https://example.com" },
    parse := fun _ => some [],
    ack := fun _ => true,
    blocked := fun _ => false }

/-- A browser environment whose blocklist rejects every URL and whose
acknowledgment callback accepts every check. -/
def envB : Env :=
  { computer :=
      { methods := ["click", "goto"], environment := "browser",
        dimensions := (1024, 768), screenshot := "IMG",
        current_url := "https://blocked.example" },
    parse := fun _ => some [],
    ack := fun _ => true,
    blocked := fun _ => true }

/-- An environment whose acknowledgment callback declines every safety
check. -/
def envN : Env :=
  { computer :=
      { methods := ["click", "goto"], environment := "mac",
        dimensions := (1024, 768), screenshot := "IMG",
        current_url := "https://example.com" },
    parse := fun _ => some [],
    ack := fun _ => false,
    blocked := fun _ => false }

/-- An environment whose JSON parser rejects every payload. -/
def envP : Env :=
  { computer :=
      { methods := ["click", "goto"], environment := "mac",
        dimensions := (1024, 768), screenshot := "IMG",
        current_url := "https://example.com" },
    parse := fun _ => none,
    ack := fun _ => true,
    blocked := fun _ => false }

/-- A model stub that always answers with a single assistant message. -/
def oracleDone : List Item → Response :=
  fun _ => { output := some [Item.message "assistant" ["Done."]] }

/-- A model stub whose response always lacks the output field. -/
def oracleNone : List Item → Response :=
  fun _ => { output := none }

/-- A model stub that always answers with an output field holding an empty
item list. -/
def oracleEmpty : List Item → Response :=
  fun _ => { output := some [] }

/-- A model stub that answers with a function call carrying an unparsable
argument payload, followed by an assistant message. -/
def oracleBad : List Item → Response :=
  fun _ =>
    { output := some
        [ Item.functionCall "do_thing" "not json" "c9",
          Item.message "assistant" ["done"] ] }

/-- A user message, the typical caller-supplied input item. -/
def userItem : Item := .message "user" ["hi"]

/-- A satisfied stop condition forces the last accumulated item to be an
assistant-role message. -/
theorem stopCond_eq_true {acc : List Item} (h : stopCond acc = true) :
    ∃ content, acc.getLast? = some (Item.message "assistant" content) := by
  unfold stopCond at h
  rw [beq_iff_eq] at h
  cases hl : acc.getLast? with
  | none => rw [hl] at h; simp at h
  | some it =>
    rw [hl] at h
    cases it <;> simp [getRole] at h
    subst h
    exact ⟨_, rfl⟩

/-- The loop returns normally only with an accumulator satisfying the stop
condition. -/
theorem runLoop_ok_stopCond (env : Env) (oracle : List Item → Response)
    (debug : Bool) (input_items : List Item) :
    ∀ (fuel : Nat) (acc : List Item) (brain : Option String)
      (items : List Item),
      runLoop env oracle debug input_items fuel acc brain = .ok items →
      stopCond items = true := by
  intro fuel
  induction fuel with
  | zero => intro acc brain items h; simp [runLoop] at h
  | succ n ih =>
    intro acc brain items h
    unfold runLoop at h
    by_cases hstop : stopCond acc
    · rw [if_pos hstop] at h
      cases h
      exact hstop
    · rw [if_neg hstop] at h
      split at h
      · simp at h
      · split at h
        · simp at h
        · exact ih _ _ _ h

/-- Claim C1: whenever `run_full_turn` returns normally, the last item of
the returned accumulator is a message item whose role is "assistant". -/
theorem run_full_turn_last_assistant (env : Env)
    (oracle : List Item → Response) (debug : Bool) (input_items : List Item)
    (fuel : Nat) (brain : Option String) (items : List Item)
    (h : Agent.run_full_turn env oracle debug input_items fuel brain =
      .ok items) :
    ∃ content, items.getLast? = some (Item.message "assistant" content) :=
  stopCond_eq_true
    (runLoop_ok_stopCond env oracle debug input_items fuel [] brain items h)

/-- Witness for C1: a concrete run ending in an assistant message. -/
theorem run_full_turn_last_assistant_witness :
    ∃ content,
      ([Item.message "assistant" ["Done."]] : List Item).getLast? =
        some (Item.message "assistant" content) :=
  run_full_turn_last_assistant envW oracleDone false [userItem] 2 none
    [Item.message "assistant" ["Done."]] (by decide)

/-- Claim C2: a `function_call` or `computer_call` item on which
`handle_item` completes without raising yields exactly one output item of
the corresponding output type carrying the same call identifier; every
other item kind yields the empty list. -/
theorem handle_item_output_shape (env : Env) (brain : Option String) :
    (∀ (name args cid : String) (out : List Item) (brain' : Option String),
       Agent.handle_item env brain (.functionCall name args cid) =
         .ok (out, brain') →
       ∃ r, out = [Item.functionCallOutput cid r]) ∧
    (∀ (aty : String) (aargs : List (String × String)) (cid : String)
       (checks : List SafetyCheck) (out : List Item)
       (brain' : Option String),
       Agent.handle_item env brain (.computerCall aty aargs cid checks) =
         .ok (out, brain') →
       ∃ acks co, out = [Item.computerCallOutput cid acks co]) ∧
    (∀ (role : String) (content : List String),
       Agent.handle_item env brain (.message role content) = .ok ([], brain)) ∧
    (∀ (cid : String) (output : Option String),
       Agent.handle_item env brain (.functionCallOutput cid output) =
         .ok ([], brain)) ∧
    (∀ (cid : String) (acks : List SafetyCheck) (co : CallOutput),
       Agent.handle_item env brain (.computerCallOutput cid acks co) =
         .ok ([], brain)) ∧
    (∀ ty : String, Agent.handle_item env brain (.other ty) = .ok ([], brain)) := by
  refine ⟨?_, ?_, ?_, ?_, ?_, ?_⟩
  · intro name args cid out brain' h
    simp only [Agent.handle_item] at h
    split at h
    · exact Except.noConfusion h
    · split at h
      · exact Except.noConfusion h
      · cases h
        exact ⟨_, rfl⟩
  · intro aty aargs cid checks out brain' h
    simp only [Agent.handle_item] at h
    split at h
    · exact Except.noConfusion h
    · split at h
      · split at h
        · exact Except.noConfusion h
        · cases h
          exact ⟨_, _, rfl⟩
      · cases h
        exact ⟨_, _, rfl⟩
  · intro role content; rfl
  · intro cid output; rfl
  · intro cid acks co; rfl
  · intro ty; rfl

/-- Witness for C2: a concrete `function_call` dispatch. -/
theorem handle_item_output_shape_witness :
    ∃ r, [Item.functionCallOutput "c1" (some "")] =
      [Item.functionCallOutput "c1" r] :=
  (handle_item_output_shape envW none).1 "fetch_memory" "{}" "c1"
    [Item.functionCallOutput "c1" (some "")] none (by decide)

/-- `buildBaseContext` distributes over list append. -/
theorem buildBaseContext_append (xs ys : List (Except Unit String)) :
    buildBaseContext (xs ++ ys) =
      buildBaseContext xs ++ buildBaseContext ys :=
  List.filterMap_append _ _ _

/-- Claim C3: at the start of a turn the controller attempts every
provider's fetch, prepends a system-role item for each success with
non-empty content, and swallows fetch failures without aborting the turn
(a failing fetch leaves the run exactly as if that provider were absent). -/
theorem run_full_turn_memory_injection :
    (∀ (env : Env) (oracle : List Item → Response) (debug : Bool)
       (fetches : List (Except Unit String)) (input_items : List Item)
       (fuel : Nat) (brain : Option String),
       runFullTurnMP env oracle debug fetches input_items fuel brain =
         Agent.run_full_turn env oracle debug
           (buildBaseContext fetches ++ input_items) fuel brain) ∧
    (∀ (pre post : List (Except Unit String)) (content : String),
       content ≠ "" →
       buildBaseContext (pre ++ .ok content :: post) =
         buildBaseContext pre ++
           Item.message "system" [content] :: buildBaseContext post) ∧
    (∀ (pre post : List (Except Unit String)) (e : Unit),
       buildBaseContext (pre ++ .error e :: post) =
         buildBaseContext (pre ++ post)) ∧
    (∀ (env : Env) (oracle : List Item → Response) (debug : Bool)
       (pre post : List (Except Unit String)) (e : Unit)
       (input_items : List Item) (fuel : Nat) (brain : Option String),
       runFullTurnMP env oracle debug (pre ++ .error e :: post) input_items
           fuel brain =
         runFullTurnMP env oracle debug (pre ++ post) input_items fuel
           brain) := by
  have herr : ∀ (pre post : List (Except Unit String)) (e : Unit),
      buildBaseContext (pre ++ .error e :: post) =
        buildBaseContext (pre ++ post) := by
    intro pre post e
    rw [buildBaseContext_append, buildBaseContext_append]
    simp [buildBaseContext, List.filterMap_cons]
  refine ⟨fun _ _ _ _ _ _ _ => rfl, ?_, herr, ?_⟩
  · intro pre post content h
    rw [buildBaseContext_append]
    simp [buildBaseContext, List.filterMap_cons, h]
  · intro env oracle debug pre post e input_items fuel brain
    unfold runFullTurnMP
    rw [herr pre post e]

/-- Witness for C3: a single provider with non-empty content is injected as
one system item. -/
theorem run_full_turn_memory_injection_witness :
    buildBaseContext ([] ++ .ok "notes" :: []) =
      buildBaseContext [] ++
        Item.message "system" ["notes"] :: buildBaseContext [] :=
  run_full_turn_memory_injection.2.1 [] [] "notes" (by decide)

/-- Claim C4 (code bug): with a model stub whose responses carry an output
field holding an empty item list, `run_full_turn` never terminates: every
iteration appends nothing and calls the model again with unchanged context,
so every iteration bound is exhausted. -/
theorem run_full_turn_empty_output_spins (env : Env) (debug : Bool)
    (input_items : List Item) (brain : Option String) :
    ∀ fuel : Nat,
      Agent.run_full_turn env oracleEmpty debug input_items fuel brain =
        .outOfFuel := by
  intro fuel
  unfold Agent.run_full_turn
  induction fuel with
  | zero => rfl
  | succ n ih => exact ih

/-- Claim C5: a model response lacking the output field makes the loop stop
with an error: `NoModelOutput` when the debug flag is set, and the
`KeyError` from subscripting the missing key when it is not — in neither
case does the loop continue. -/
theorem no_output_field_surfaced (env : Env) (oracle : List Item → Response)
    (input_items acc : List Item) (fuel : Nat) (brain : Option String)
    (hstop : stopCond acc = false)
    (hout : (oracle (input_items ++ acc)).output = none) :
    runLoop env oracle true input_items (fuel + 1) acc brain =
      .error .noModelOutput ∧
    runLoop env oracle false input_items (fuel + 1) acc brain =
      .error .keyError := by
  constructor <;>
  · unfold runLoop
    rw [if_neg (by simp [hstop]), hout]
    rfl

/-- Witness for C5 at a concrete missing-output response. -/
theorem no_output_field_surfaced_witness :
    runLoop envW oracleNone true [userItem] 1 [] none =
      .error .noModelOutput ∧
    runLoop envW oracleNone false [userItem] 1 [] none =
      .error .keyError :=
  no_output_field_surfaced envW oracleNone [userItem] [] 0 none (by decide)
    (by decide)

/-- A dispatch error on the first item aborts the whole inner dispatch
loop. -/
theorem handleItems_head_error (env : Env) (brain : Option String)
    (it : Item) (rest : List Item) (e : AgentError)
    (h : Agent.handle_item env brain it = .error e) :
    handleItems env brain (it :: rest) = .error e := by
  unfold handleItems
  rw [h]

/-- Counterexample for C6: a function call with an unparsable argument
payload aborts the whole `run_full_turn` — the run errors out even though
the model response also contained a terminal assistant message, so
processing does not continue past that single item. -/
theorem malformed_arguments_abort_cex :
    Agent.handle_item envP none
        (.functionCall "do_thing" "not json" "c9") =
      .error .malformedArguments ∧
    Agent.run_full_turn envP oracleBad false [userItem] 3 none =
      .error .malformedArguments :=
  ⟨by decide, by decide⟩

/-- Claim C6 amended: an unparsable argument payload makes `handle_item`
raise `MalformedArguments`, and the exception is never caught: it
propagates out of the turn loop and aborts the whole turn; the caller can
recover only by catching it and retrying. -/
theorem malformed_arguments_propagate (env : Env) (brain : Option String)
    (name args cid : String) (hparse : env.parse args = none) :
    (Agent.handle_item env brain (.functionCall name args cid) =
      .error .malformedArguments) ∧
    (∀ (oracle : List Item → Response) (debug : Bool)
       (input_items acc : List Item) (fuel : Nat) (rest : List Item),
       stopCond acc = false →
       (oracle (input_items ++ acc)).output =
         some (Item.functionCall name args cid :: rest) →
       runLoop env oracle debug input_items (fuel + 1) acc brain =
         .error .malformedArguments) := by
  have hitem : Agent.handle_item env brain (.functionCall name args cid) =
      .error .malformedArguments := by
    simp only [Agent.handle_item, hparse]
  refine ⟨hitem, ?_⟩
  intro oracle debug input_items acc fuel rest hstop hout
  unfold runLoop
  rw [if_neg (by simp [hstop]), hout]
  simp only [handleItems_head_error env brain _ rest _ hitem]

/-- Witness for C6 amended: the error from a concrete unparsable payload
reaches the top of the loop. -/
theorem malformed_arguments_propagate_witness :
    runLoop envP oracleBad false [userItem] 3 [] none =
      .error .malformedArguments :=
  (malformed_arguments_propagate envP none "do_thing" "not json" "c9"
      (by decide)).2 oracleBad false [userItem] [] 2
    [Item.message "assistant" ["done"]] (by decide) (by decide)

/-- Counterexample for C7: in a browser environment whose current URL is
blocklisted, the acknowledgment callback accepts every safety check
(vacuously, the call carries none), yet `handle_item` raises `BlockedURL`
instead of returning a `computer_call_output`. -/
theorem safety_ack_blocked_url_cex :
    Agent.handle_item envB none (.computerCall "click" [] "c1" []) =
      .error .blockedURL := by decide

/-- Claim C7 amended: a declined safety check raises `SafetyCheckRejected`
with that check's message and no output item; when all checks are
acknowledged, exactly one `computer_call_output` carrying the full check
list is returned — unless the environment is a browser whose current URL is
blocklisted, in which case `BlockedURL` is raised and no output is
returned. -/
theorem computer_call_safety_gating (env : Env) (brain : Option String)
    (aty : String) (aargs : List (String × String)) (cid : String)
    (checks : List SafetyCheck) :
    (∀ ch, checks.find? (fun c => ! env.ack c.message) = some ch →
       Agent.handle_item env brain (.computerCall aty aargs cid checks) =
         .error (.safetyCheckRejected ch.message)) ∧
    (checks.all (fun c => env.ack c.message) = true →
       (env.computer.environment = "browser" →
          env.blocked env.computer.current_url = true →
          Agent.handle_item env brain (.computerCall aty aargs cid checks) =
            .error .blockedURL) ∧
       (env.computer.environment = "browser" →
          env.blocked env.computer.current_url = false →
          Agent.handle_item env brain (.computerCall aty aargs cid checks) =
            .ok ([.computerCallOutput cid checks
                   { image_url :=
                       "data:image/png;base64," ++ env.computer.screenshot,
                     current_url := some env.computer.current_url }],
                 brain)) ∧
       (¬ env.computer.environment = "browser" →
          Agent.handle_item env brain (.computerCall aty aargs cid checks) =
            .ok ([.computerCallOutput cid checks
                   { image_url :=
                       "data:image/png;base64," ++ env.computer.screenshot,
                     current_url := none }],
                 brain))) := by
  constructor
  · intro ch hch
    simp only [Agent.handle_item, hch]
  · intro hall
    have hnone : checks.find? (fun c => ! env.ack c.message) = none := by
      rw [List.find?_eq_none]
      intro c hc
      have := List.all_eq_true.mp hall c hc
      simp [this]
    refine ⟨?_, ?_, ?_⟩
    · intro henv hbl
      simp only [Agent.handle_item, hnone]
      rw [if_pos henv, if_pos hbl]
    · intro henv hbl
      simp only [Agent.handle_item, hnone]
      rw [if_pos henv, if_neg (by simp [hbl])]
    · intro henv
      simp only [Agent.handle_item, hnone]
      rw [if_neg henv]

/-- Witness for C7 amended: a declined check on a concrete call raises with
its message. -/
theorem computer_call_safety_gating_witness :
    Agent.handle_item envN none
        (.computerCall "click" [] "c1" [⟨"sc1", "Dangerous"⟩]) =
      .error (.safetyCheckRejected "Dangerous") :=
  (computer_call_safety_gating envN none "click" [] "c1"
      [⟨"sc1", "Dangerous"⟩]).1 ⟨"sc1", "Dangerous"⟩ (by decide)

/-- Claim C8: an unrecognized tool name sent to the provider's
`handle_call` raises `UnsupportedOperation`, while a `function_call` whose
name matches neither memory tool nor any computer-backend method yields one
output item with a null payload rather than raising. -/
theorem unknown_tool_dispatch :
    (∀ (state name : String) (arguments : List (String × String)),
       name ≠ "fetch_memory" → name ≠ "write_memory" →
       FileMemoryProvider.handle_call state name arguments =
         .error (.unsupportedOperation name)) ∧
    (∀ (env : Env) (brain : Option String) (name args cid : String)
       (kwargs : List (String × String)),
       env.parse args = some kwargs →
       name ≠ "fetch_memory" → name ≠ "write_memory" →
       env.computer.methods.contains name = false →
       Agent.handle_item env brain (.functionCall name args cid) =
         .ok ([.functionCallOutput cid none], brain)) := by
  constructor
  · intro state name arguments h1 h2
    unfold FileMemoryProvider.handle_call
    rw [if_neg h1, if_neg h2]
  · intro env brain name args cid kwargs hp h1 h2 h3
    simp only [Agent.handle_item, hp, functionCallResult, h1, h2, h3,
      if_false, Bool.false_eq_true, if_neg]

/-- Witness for C8: a concrete unrecognized provider call. -/
theorem unknown_tool_dispatch_witness :
    FileMemoryProvider.handle_call "" "frobnicate" [] =
      .error (.unsupportedOperation "frobnicate") :=
  unknown_tool_dispatch.1 "" "frobnicate" [] (by decide) (by decide)

/-- Claim C9: `write_memory content` followed by `fetch_memory` with no
intervening write returns the previous contents extended by a newline and
`content`, hence a string with newline-then-content as a suffix; this holds
for the file provider state and for the agent brain-file functions. -/
theorem write_fetch_roundtrip (state content brainContents : String) :
    (FileMemoryProvider.handle_call state "write_memory"
        [("content", content)] =
      .ok (content, state ++ ("\n" ++ content))) ∧
    (FileMemoryProvider.handle_call (state ++ ("\n" ++ content))
        "fetch_memory" [] =
      .ok (state ++ ("\n" ++ content), state ++ ("\n" ++ content))) ∧
    (∃ p, state ++ ("\n" ++ content) = p ++ ("\n" ++ content)) ∧
    (Agent.write_memory (some brainContents) content =
      (content, some (brainContents ++ ("\n" ++ content)))) ∧
    (∃ p, Agent.fetch_memory (some (brainContents ++ ("\n" ++ content))) =
      p ++ ("\n" ++ content)) :=
  ⟨rfl, rfl, ⟨state, rfl⟩, rfl, ⟨brainContents, rfl⟩⟩

/-- Claim C10: with no brain file configured, `fetch_memory` returns the
empty string, `write_memory` returns the empty string and leaves the memory
state untouched, and the assembled tool list contains no memory tool
descriptor. -/
theorem no_brain_file_memory_disabled :
    (Agent.fetch_memory none = "") ∧
    (∀ content : String, Agent.write_memory none content = ("", none)) ∧
    (∀ (computer : Option Computer) (tools : List Tool),
       agentTools computer none tools = tools ++ computerToolOf computer) ∧
    (∀ computer : Option Computer,
       (agentTools computer none []).filter isMemoryTool = []) := by
  refine ⟨rfl, fun _ => rfl, ?_, ?_⟩
  · intro computer tools
    simp [agentTools, brainPresent]
  · intro computer
    cases computer with
    | none => rfl
    | some c => simp [agentTools, brainPresent, computerToolOf, isMemoryTool]
